import Mathlib

/-!
Verification development for the Munger-style stock-analysis engine.

The TypeScript source is shallowly embedded here:
* numeric fields of a financial record are `Option ℚ` (a `null` field is
  `none`); JavaScript truthiness of a number (`x && x !== null`) is the
  predicate `truthyQ`, and the numeric coercion applied by JS arithmetic
  and relational operators to `null` is `jsNum` (null ↦ 0);
* code that can throw a runtime `TypeError` (unguarded `array[0]` access)
  is embedded in `Option`, with `none` for the thrown exception;
* `Array.prototype.sort` with the date comparator is embedded as the
  stable insertion sort `sortByPeriodDesc`;
* the analyzers (`analyzeMoatStrength`, `analyzeManagementQuality`,
  `analyzePredictability`, `calculateMungerValuation`), the aggregation in
  `charlieMungerTool.execute`, the memo assembly of
  `generateInvestmentMemo` and the pagination loop of `getInsiderTrades`
  are translated block by block.
-/

/-- JS numeric coercion of a nullable number: `null` acts as `0` in
arithmetic and in relational comparisons. -/
def jsNum (o : Option ℚ) : ℚ := o.getD 0

/-- JS truthiness test `x && x !== null` on a nullable number: `null` and
`0` are falsy, every other number is truthy. -/
def truthyQ : Option ℚ → Bool
  | some v => v != 0
  | none => false

/-- Left-pad a digit string with zeros to the given width. -/
def padZeros (d : Nat) (s : String) : String :=
  String.mk (List.replicate (d - s.length) '0') ++ s

/-- Embedding of JavaScript `Number.prototype.toFixed` on exact rationals:
round half up to `d` decimal places and render with exactly `d` digits
after the point. -/
def toFixedStr (d : Nat) (q : ℚ) : String :=
  let n : Int := (q * (10 : ℚ) ^ d + 1 / 2).floor
  let m : Nat := n.natAbs
  let base : Nat := 10 ^ d
  let sign : String := if n < 0 then "-" else ""
  if d = 0 then sign ++ toString (m / base)
  else sign ++ toString (m / base) ++ "." ++ padZeros d (toString (m % base))

/-- A financial-metrics record (`FinancialMetrics` in the source). The
analyzers only inspect whether the metrics collection is empty, so only a
representative subset of its fields is carried. -/
structure FinancialMetrics where
  ticker : String := ""
  report_period : String := ""
  period : String := ""
  currency : String := ""
  market_cap : Option ℚ := none
deriving DecidableEq, Inhabited

/-- A per-period financial record (`LineItem` in the source).
`reporting_period` is the numeric time value (`new Date(...).getTime()`)
used by the sort comparators; the named numeric fields are nullable. -/
structure LineItem where
  ticker : String := ""
  period : String := "annual"
  currency : String := ""
  reporting_period : ℚ := 0
  outstanding_shares : Option ℚ := none
  total_debt : Option ℚ := none
  goodwill_and_intangible_assets : Option ℚ := none
  cash_and_equivalents : Option ℚ := none
  shareholders_equity : Option ℚ := none
  free_cash_flow : Option ℚ := none
  net_income : Option ℚ := none
  capital_expenditure : Option ℚ := none
  research_and_development : Option ℚ := none
  operating_income : Option ℚ := none
  revenue : Option ℚ := none
  operating_margin : Option ℚ := none
  return_on_invested_capital : Option ℚ := none
  gross_margin : Option ℚ := none
deriving DecidableEq, Inhabited

/-- An insider-trade record (`InsiderTrade` in the source); only the
fields read by the analyzers and the pagination loop are carried. -/
structure InsiderTrade where
  ticker : String := ""
  insider_name : String := ""
  title : String := ""
  transaction_type : String := ""
  price : Option ℚ := none
  quantity : ℚ := 0
  filing_date : String := ""
deriving DecidableEq, Inhabited

/-- The `{score, details}` object every analyzer returns; `details` is the
single string produced by `details.join("; ")` in the source. -/
structure AnalysisResult where
  score : ℚ
  details : String
deriving DecidableEq, Inhabited

/-- The `{conservative, reasonable, optimistic}` intrinsic-value bands of
the valuation analyzer. -/
structure IntrinsicValueRange where
  conservative : ℚ
  reasonable : ℚ
  optimistic : ℚ
deriving DecidableEq, Inhabited

/-- The valuation analyzer's return shape: an `AnalysisResult` extended
with the optional valuation fields. -/
structure ValuationResult where
  score : ℚ
  details : String
  intrinsicValueRange : Option IntrinsicValueRange := none
  fcfYield : Option ℚ := none
  normalizedFcf : Option ℚ := none
deriving DecidableEq, Inhabited

/-- Insert into a list already sorted by `reporting_period` descending,
after any strictly more recent element (stability of JS `sort`). -/
def insertPeriodDesc (a : LineItem) : List LineItem → List LineItem
  | [] => [a]
  | b :: rest =>
      if a.reporting_period < b.reporting_period then b :: insertPeriodDesc a rest
      else a :: b :: rest

/-- Stable sort by `reporting_period` descending, the embedding of
`.sort((a, b) => new Date(b.reporting_period).getTime() - new Date(a.reporting_period).getTime())`. -/
def sortByPeriodDesc : List LineItem → List LineItem
  | [] => []
  | a :: rest => insertPeriodDesc a (sortByPeriodDesc rest)

/-- Moat sub-check 1 (ROIC): fraction of periods with ROIC above 0.15;
the raw mapped values include `null`s, which compare as 0. -/
def roicCheck (li : List LineItem) : ℚ × List String :=
  if 0 < li.length then
    let roicValues := li.map (fun it => it.return_on_invested_capital)
    let n := roicValues.length
    let highRoicCount := (roicValues.filter (fun r => jsNum r > 15 / 100)).length
    if (highRoicCount : ℚ) ≥ (n : ℚ) * (8 / 10) then
      (3, ["Excellent ROIC: >15% in " ++ toString highRoicCount ++ "/" ++ toString n ++ " periods"])
    else if (highRoicCount : ℚ) ≥ (n : ℚ) * (5 / 10) then
      (2, ["Good ROIC: >15% in " ++ toString highRoicCount ++ "/" ++ toString n ++ " periods"])
    else if 0 < highRoicCount then
      (1, ["Mixed ROIC: >15% in only " ++ toString highRoicCount ++ "/" ++ toString n ++ " periods"])
    else (0, ["Poor ROIC: Never exceeds 15% threshold"])
  else (0, ["No ROIC data available"])

/-- Count of consecutive non-decreases, the embedding of the
`for (let i = 1; ...) if (grossMargins[i] >= grossMargins[i-1]) marginTrend++`
loop. -/
def nonDecreaseCount : List ℚ → Nat
  | a :: b :: rest => (if a ≤ b then 1 else 0) + nonDecreaseCount (b :: rest)
  | _ => 0

/-- Moat sub-check 2 (pricing power / gross-margin trend). Note the +2
condition compares the non-decrease count with `0.7 * (number of
periods)`, not with 70% of the `n - 1` consecutive pairs. -/
def marginCheck (li : List LineItem) : ℚ × List String :=
  if 3 ≤ li.length then
    let grossMargins := li.map (fun it => jsNum it.gross_margin)
    let marginTrend := nonDecreaseCount grossMargins
    if (marginTrend : ℚ) ≥ (grossMargins.length : ℚ) * (7 / 10) then
      (2, ["Strong pricing power: Gross margins consistently improving"])
    else if grossMargins.sum / (grossMargins.length : ℚ) > 3 / 10 then
      (1, ["Good pricing power: Average gross margin " ++
            toFixedStr 1 (grossMargins.sum / (grossMargins.length : ℚ) * 100) ++ "%"])
    else (0, ["Limited pricing power: Low or declining gross margins"])
  else (0, ["Insufficient gross margin data"])

/-- Moat sub-check 3 (capital intensity): mean |capex|/revenue over the
periods where capex is truthy and revenue is positive. -/
def capexCheck (li : List LineItem) : ℚ × List String :=
  if 3 ≤ li.length then
    let capexRevenueItems := li.filter
      (fun it => truthyQ it.capital_expenditure && decide (0 < jsNum it.revenue))
    let capexToRevenue := capexRevenueItems.map
      (fun it => |jsNum it.capital_expenditure| / jsNum it.revenue)
    if 0 < capexToRevenue.length then
      let avgCapexRatio := capexToRevenue.sum / (capexToRevenue.length : ℚ)
      if avgCapexRatio < 5 / 100 then
        (2, ["Low capital requirements: Avg capex " ++ toFixedStr 1 (avgCapexRatio * 100) ++ "% of revenue"])
      else if avgCapexRatio < 10 / 100 then
        (1, ["Moderate capital requirements: Avg capex " ++ toFixedStr 1 (avgCapexRatio * 100) ++ "% of revenue"])
      else (0, ["High capital requirements: Avg capex " ++ toFixedStr 1 (avgCapexRatio * 100) ++ "% of revenue"])
    else (0, ["No capital expenditure data available"])
  else (0, ["Insufficient data for capital intensity analysis"])

/-- Moat sub-check 4 (R&D): +1 when the truthy R&D values sum positive. -/
def rdCheck (li : List LineItem) : ℚ × List String :=
  let rAndDItems := li.filter (fun it => truthyQ it.research_and_development)
  if 0 < rAndDItems.length then
    let rAndDSum := (rAndDItems.map (fun it => jsNum it.research_and_development)).sum
    if 0 < rAndDSum then (1, ["Invests in R&D, building intellectual property"])
    else (0, [])
  else (0, [])

/-- Moat sub-check 5 (goodwill/intangibles): +1 when any period reports a
truthy value. -/
def goodwillCheck (li : List LineItem) : ℚ × List String :=
  let goodwillItems := li.filter (fun it => truthyQ it.goodwill_and_intangible_assets)
  if 0 < goodwillItems.length then
    (1, ["Significant goodwill/intangible assets, suggesting brand value or IP"])
  else (0, [])

/-- `analyzeMoatStrength` from the source: guard on empty inputs, the
five sub-checks in order, raw score scaled by `min(10, raw*10/9)`, and
the rationale strings joined with `"; "`. -/
def analyzeMoatStrength (metrics : List FinancialMetrics) (li : List LineItem) : AnalysisResult :=
  if metrics.isEmpty || li.isEmpty then
    ⟨0, "Insufficient data to analyze moat strength"⟩
  else
    let c1 := roicCheck li
    let c2 := marginCheck li
    let c3 := capexCheck li
    let c4 := rdCheck li
    let c5 := goodwillCheck li
    let raw := c1.1 + c2.1 + c3.1 + c4.1 + c5.1
    ⟨min 10 (raw * 10 / 9),
     String.intercalate "; " (c1.2 ++ c2.2 ++ c3.2 ++ c4.2 ++ c5.2)⟩

/-- The moat analyzer's rationale fragments as the ordered list the
source accumulates before `details.join("; ")`. -/
def moatDetails (metrics : List FinancialMetrics) (li : List LineItem) : List String :=
  if metrics.isEmpty || li.isEmpty then
    ["Insufficient data to analyze moat strength"]
  else
    (roicCheck li).2 ++ (marginCheck li).2 ++ (capexCheck li).2 ++ (rdCheck li).2 ++ (goodwillCheck li).2

/-- Management sub-check 1 (cash conversion): mean FCF/NI over periods
where both fields are truthy and net income is positive. -/
def fcfNiCheck (li : List LineItem) : ℚ × List String :=
  let fcfAndNetIncomeItems := li.filter
    (fun it => truthyQ it.free_cash_flow && truthyQ it.net_income)
  let fcfToNiRatios := (fcfAndNetIncomeItems.filter (fun it => decide (0 < jsNum it.net_income))).map
    (fun it => jsNum it.free_cash_flow / jsNum it.net_income)
  if 0 < fcfToNiRatios.length then
    let avgRatio := fcfToNiRatios.sum / (fcfToNiRatios.length : ℚ)
    if avgRatio > 11 / 10 then
      (3, ["Excellent cash conversion: FCF/NI ratio of " ++ toFixedStr 2 avgRatio])
    else if avgRatio > 9 / 10 then
      (2, ["Good cash conversion: FCF/NI ratio of " ++ toFixedStr 2 avgRatio])
    else if avgRatio > 7 / 10 then
      (1, ["Moderate cash conversion: FCF/NI ratio of " ++ toFixedStr 2 avgRatio])
    else (0, ["Poor cash conversion: FCF/NI ratio of only " ++ toFixedStr 2 avgRatio])
  else (0, ["Could not calculate FCF to Net Income ratios"])

/-- Management sub-check 2 (debt management): D/E of the most recent
period with both fields truthy. The source indexes `[0]` on the filtered
sorted list with no emptiness guard; `none` embeds the thrown
`TypeError` when that list is empty. -/
def debtCheck (li : List LineItem) : Option (ℚ × List String) :=
  let debtAndEquityItems := sortByPeriodDesc
    (li.filter (fun it => truthyQ it.total_debt && truthyQ it.shareholders_equity))
  match debtAndEquityItems.head? with
  | none => none
  | some it0 =>
    let recentDebtValue := jsNum it0.total_debt
    let recentEquityValue := jsNum it0.shareholders_equity
    if 0 < recentEquityValue then
      let recentDeRatio := recentDebtValue / recentEquityValue
      if recentDeRatio < 3 / 10 then
        some (3, ["Conservative debt management: D/E ratio of " ++ toFixedStr 2 recentDeRatio])
      else if recentDeRatio < 7 / 10 then
        some (2, ["Prudent debt management: D/E ratio of " ++ toFixedStr 2 recentDeRatio])
      else if recentDeRatio < 15 / 10 then
        some (1, ["Moderate debt level: D/E ratio of " ++ toFixedStr 2 recentDeRatio])
      else some (0, ["High debt level: D/E ratio of " ++ toFixedStr 2 recentDeRatio])
    else some (0, ["Negative or zero equity value"])

/-- Management sub-check 3 (cash efficiency): cash/revenue of the most
recent period with both fields truthy; same unguarded `[0]` access as
`debtCheck`, so `none` embeds the thrown `TypeError`. -/
def cashCheck (li : List LineItem) : Option (ℚ × List String) :=
  let cashAndRevenueItems := sortByPeriodDesc
    (li.filter (fun it => truthyQ it.cash_and_equivalents && truthyQ it.revenue))
  match cashAndRevenueItems.head? with
  | none => none
  | some it0 =>
    let recentCashValue := jsNum it0.cash_and_equivalents
    let recentRevenueValue := jsNum it0.revenue
    if 0 < recentRevenueValue then
      let cashToRevenue := recentCashValue / recentRevenueValue
      if 1 / 10 ≤ cashToRevenue ∧ cashToRevenue ≤ 25 / 100 then
        some (2, ["Prudent cash management: Cash/Revenue ratio of " ++ toFixedStr 2 cashToRevenue])
      else if (5 / 100 ≤ cashToRevenue ∧ cashToRevenue < 1 / 10) ∨
              (25 / 100 < cashToRevenue ∧ cashToRevenue ≤ 4 / 10) then
        some (1, ["Acceptable cash position: Cash/Revenue ratio of " ++ toFixedStr 2 cashToRevenue])
      else if cashToRevenue > 4 / 10 then
        some (0, ["Excess cash reserves: Cash/Revenue ratio of " ++ toFixedStr 2 cashToRevenue])
      else some (0, ["Low cash reserves: Cash/Revenue ratio of " ++ toFixedStr 2 cashToRevenue])
    else some (0, ["Zero or negative revenue"])

/-- Management sub-check 4 (insider activity): classify trades by
case-insensitive transaction type and score the buy ratio. -/
def insiderCheck (trades : List InsiderTrade) : ℚ × List String :=
  if trades.isEmpty then (0, ["No insider trading data available"])
  else
    let buys := (trades.filter (fun t =>
      (t.transaction_type != "") &&
      ((t.transaction_type.toLower == "buy") || (t.transaction_type.toLower == "purchase")))).length
    let sells := (trades.filter (fun t =>
      (t.transaction_type != "") &&
      ((t.transaction_type.toLower == "sell") || (t.transaction_type.toLower == "sale")))).length
    let totalTrades := buys + sells
    if 0 < totalTrades then
      let buyRatio := (buys : ℚ) / (totalTrades : ℚ)
      if buyRatio > 7 / 10 then
        (2, ["Strong insider buying: " ++ toString buys ++ "/" ++ toString totalTrades ++ " transactions are purchases"])
      else if buyRatio > 4 / 10 then
        (1, ["Balanced insider trading: " ++ toString buys ++ "/" ++ toString totalTrades ++ " transactions are purchases"])
      else if buyRatio < 1 / 10 ∧ 5 < sells then
        (-1, ["Concerning insider selling: " ++ toString sells ++ "/" ++ toString totalTrades ++ " transactions are sales"])
      else (0, ["Mixed insider activity: " ++ toString buys ++ "/" ++ toString totalTrades ++ " transactions are purchases"])
    else (0, ["No recorded insider transactions"])

/-- Management sub-check 5 (share-count trend). The source sorts
descending (most recent first) but names `items[0]` `oldestCount` and
`items[last]` `newestCount`; the comparisons below therefore apply the
source's branches to the swapped values, exactly as the code does. -/
def shareCountCheck (li : List LineItem) : ℚ × List String :=
  let shareCountItems := sortByPeriodDesc
    (li.filter (fun it => truthyQ it.outstanding_shares))
  if 3 ≤ shareCountItems.length then
    let oldestCount := jsNum ((shareCountItems.headD default).outstanding_shares)
    let newestCount := jsNum ((shareCountItems.getLastD default).outstanding_shares)
    if newestCount < oldestCount * (95 / 100) then
      (2, ["Shareholder-friendly: Reducing share count over time"])
    else if newestCount < oldestCount * (105 / 100) then
      (1, ["Stable share count: Limited dilution"])
    else if newestCount > oldestCount * (12 / 10) then
      (-1, ["Concerning dilution: Share count increased significantly"])
    else (0, ["Moderate share count increase over time"])
  else (0, ["Insufficient share count data"])

/-- `analyzeManagementQuality` from the source: guard on an empty
line-item list, the five sub-checks in order, raw score clamped by
`max(0, min(10, raw*10/12))`, rationales joined with `"; "`. A `none`
result embeds the `TypeError` thrown by the unguarded `[0]` accesses of
the debt and cash checks. -/
def analyzeManagementQuality (li : List LineItem) (trades : List InsiderTrade) :
    Option AnalysisResult :=
  if li.isEmpty then some ⟨0, "Insufficient data to analyze management quality"⟩
  else
    let c1 := fcfNiCheck li
    match debtCheck li with
    | none => none
    | some c2 =>
      match cashCheck li with
      | none => none
      | some c3 =>
        let c4 := insiderCheck trades
        let c5 := shareCountCheck li
        let raw := c1.1 + c2.1 + c3.1 + c4.1 + c5.1
        some ⟨max 0 (min 10 (raw * 10 / 12)),
              String.intercalate "; " (c1.2 ++ c2.2 ++ c3.2 ++ c4.2 ++ c5.2)⟩

/-- The management analyzer's rationale fragments as the ordered list the
source accumulates before `details.join("; ")` (`none` when the analyzer
throws). -/
def mgmtDetails (li : List LineItem) (trades : List InsiderTrade) : Option (List String) :=
  if li.isEmpty then some ["Insufficient data to analyze management quality"]
  else
    match debtCheck li, cashCheck li with
    | some c2, some c3 =>
        some ((fcfNiCheck li).2 ++ c2.2 ++ c3.2 ++ (insiderCheck trades).2 ++ (shareCountCheck li).2)
    | _, _ => none

/-- Year-over-year growth rates: for each consecutive pair of the
descending-sorted revenues, push `rev[i]/rev[i+1] - 1` when the older
value is positive. -/
def growthRates : List ℚ → List ℚ
  | a :: b :: rest => (if 0 < b then [a / b - 1] else []) ++ growthRates (b :: rest)
  | _ => []

/-- Predictability sub-check 1 (revenue stability and growth). -/
def revenueGrowthCheck (li : List LineItem) : ℚ × List String :=
  let revenueItems := sortByPeriodDesc (li.filter (fun it => truthyQ it.revenue))
  if 5 ≤ revenueItems.length then
    let revenues := revenueItems.map (fun it => jsNum it.revenue)
    let rates := growthRates revenues
    if 4 ≤ rates.length then
      let avgGrowth := rates.sum / (rates.length : ℚ)
      let growthVolatility := (rates.map (fun r => |r - avgGrowth|)).sum / (rates.length : ℚ)
      if avgGrowth > 5 / 100 ∧ growthVolatility < 1 / 10 then
        (3, ["Highly predictable revenue: " ++ toFixedStr 1 (avgGrowth * 100) ++ "% avg growth with low volatility"])
      else if 0 < avgGrowth ∧ growthVolatility < 2 / 10 then
        (2, ["Moderately predictable revenue: " ++ toFixedStr 1 (avgGrowth * 100) ++ "% avg growth with some volatility"])
      else if 0 < avgGrowth then
        (1, ["Growing but less predictable revenue: " ++ toFixedStr 1 (avgGrowth * 100) ++ "% avg growth with high volatility"])
      else (0, ["Declining or highly unpredictable revenue: " ++ toFixedStr 1 (avgGrowth * 100) ++ "% avg growth"])
    else (0, ["Insufficient revenue growth history"])
  else (0, ["Insufficient revenue history for predictability analysis"])

/-- Predictability sub-check 2 (operating-income positivity). -/
def opIncomeCheck (li : List LineItem) : ℚ × List String :=
  let opIncomeItems := li.filter (fun it => truthyQ it.operating_income)
  if 5 ≤ opIncomeItems.length then
    let opIncomes := opIncomeItems.map (fun it => jsNum it.operating_income)
    let positivePeriods := (opIncomes.filter (fun v => 0 < v)).length
    if positivePeriods = opIncomes.length then
      (3, ["Highly predictable operations: Operating income positive in all periods"])
    else if (positivePeriods : ℚ) ≥ (opIncomes.length : ℚ) * (8 / 10) then
      (2, ["Predictable operations: Operating income positive in " ++
            toString positivePeriods ++ "/" ++ toString opIncomes.length ++ " periods"])
    else if (positivePeriods : ℚ) ≥ (opIncomes.length : ℚ) * (6 / 10) then
      (1, ["Somewhat predictable operations: Operating income positive in " ++
            toString positivePeriods ++ "/" ++ toString opIncomes.length ++ " periods"])
    else (0, ["Unpredictable operations: Operating income positive in only " ++
               toString positivePeriods ++ "/" ++ toString opIncomes.length ++ " periods"])
  else (0, ["Insufficient operating income history"])

/-- Predictability sub-check 3 (operating-margin consistency): mean
absolute deviation from the mean margin. -/
def opMarginCheck (li : List LineItem) : ℚ × List String :=
  let opMarginItems := li.filter (fun it => truthyQ it.operating_margin)
  if 5 ≤ opMarginItems.length then
    let opMargins := opMarginItems.map (fun it => jsNum it.operating_margin)
    let avgMargin := opMargins.sum / (opMargins.length : ℚ)
    let marginVolatility := (opMargins.map (fun m => |m - avgMargin|)).sum / (opMargins.length : ℚ)
    if marginVolatility < 3 / 100 then
      (2, ["Highly predictable margins: " ++ toFixedStr 1 (avgMargin * 100) ++ "% avg with minimal volatility"])
    else if marginVolatility < 7 / 100 then
      (1, ["Moderately predictable margins: " ++ toFixedStr 1 (avgMargin * 100) ++ "% avg with some volatility"])
    else (0, ["Unpredictable margins: " ++ toFixedStr 1 (avgMargin * 100) ++
               "% avg with high volatility (" ++ toFixedStr 1 (marginVolatility * 100) ++ "%)"])
  else (0, ["Insufficient margin history"])

/-- Predictability sub-check 4 (cash-generation reliability). -/
def fcfReliabilityCheck (li : List LineItem) : ℚ × List String :=
  let fcfItems := li.filter (fun it => truthyQ it.free_cash_flow)
  if 5 ≤ fcfItems.length then
    let fcfValues := fcfItems.map (fun it => jsNum it.free_cash_flow)
    let positiveFcfPeriods := (fcfValues.filter (fun v => 0 < v)).length
    if positiveFcfPeriods = fcfValues.length then
      (2, ["Highly predictable cash generation: Positive FCF in all periods"])
    else if (positiveFcfPeriods : ℚ) ≥ (fcfValues.length : ℚ) * (8 / 10) then
      (1, ["Predictable cash generation: Positive FCF in " ++
            toString positiveFcfPeriods ++ "/" ++ toString fcfValues.length ++ " periods"])
    else (0, ["Unpredictable cash generation: Positive FCF in only " ++
               toString positiveFcfPeriods ++ "/" ++ toString fcfValues.length ++ " periods"])
  else (0, ["Insufficient free cash flow history"])

/-- `analyzePredictability` from the source: an up-front requirement of
at least 5 records, four sub-checks, raw score scaled by
`min(10, raw*10/10)`, rationales joined with `"; "`. -/
def analyzePredictability (li : List LineItem) : AnalysisResult :=
  if li.length < 5 then
    ⟨0, "Insufficient data to analyze business predictability (need 5+ years)"⟩
  else
    let c1 := revenueGrowthCheck li
    let c2 := opIncomeCheck li
    let c3 := opMarginCheck li
    let c4 := fcfReliabilityCheck li
    let raw := c1.1 + c2.1 + c3.1 + c4.1
    ⟨min 10 (raw * 10 / 10),
     String.intercalate "; " (c1.2 ++ c2.2 ++ c3.2 ++ c4.2)⟩

/-- The predictability analyzer's rationale fragments as the ordered
list the source accumulates before `details.join("; ")`. -/
def predDetails (li : List LineItem) : List String :=
  if li.length < 5 then
    ["Insufficient data to analyze business predictability (need 5+ years)"]
  else
    (revenueGrowthCheck li).2 ++ (opIncomeCheck li).2 ++ (opMarginCheck li).2 ++ (fcfReliabilityCheck li).2

/-- The FCF series the valuation analyzer works on: the truthy
`free_cash_flow` values in input order (the source does not re-sort). -/
def fcfValuesOf (li : List LineItem) : List ℚ :=
  (li.filter (fun it => truthyQ it.free_cash_flow)).map (fun it => jsNum it.free_cash_flow)

/-- Valuation sub-check on FCF yield. -/
def fcfYieldCheck (fcfYield : ℚ) : ℚ × List String :=
  if fcfYield > 8 / 100 then
    (4, ["Excellent value: " ++ toFixedStr 1 (fcfYield * 100) ++ "% FCF yield"])
  else if fcfYield > 5 / 100 then
    (3, ["Good value: " ++ toFixedStr 1 (fcfYield * 100) ++ "% FCF yield"])
  else if fcfYield > 3 / 100 then
    (1, ["Fair value: " ++ toFixedStr 1 (fcfYield * 100) ++ "% FCF yield"])
  else (0, ["Expensive: Only " ++ toFixedStr 1 (fcfYield * 100) ++ "% FCF yield"])

/-- Valuation sub-check on margin of safety relative to the reasonable
value. -/
def safetyCheck (currentToReasonable : ℚ) : ℚ × List String :=
  if currentToReasonable > 3 / 10 then
    (3, ["Large margin of safety: " ++ toFixedStr 1 (currentToReasonable * 100) ++ "% upside to reasonable value"])
  else if currentToReasonable > 1 / 10 then
    (2, ["Moderate margin of safety: " ++ toFixedStr 1 (currentToReasonable * 100) ++ "% upside to reasonable value"])
  else if currentToReasonable > -(1 / 10) then
    (1, ["Fair price: Within 10% of reasonable value (" ++ toFixedStr 1 (currentToReasonable * 100) ++ "%)"])
  else (0, ["Expensive: " ++ toFixedStr 1 (-currentToReasonable * 100) ++ "% premium to reasonable value"])

/-- Valuation sub-check on the FCF trajectory: mean of the first three
values against the mean of the last three (or the last value when fewer
than six exist). -/
def fcfTrendCheck (fcfValues : List ℚ) : ℚ × List String :=
  if 3 ≤ fcfValues.length then
    let recentAvg := (fcfValues.take 3).sum / 3
    let olderAvg :=
      if 6 ≤ fcfValues.length then (fcfValues.reverse.take 3).sum / 3
      else fcfValues.getLastD 0
    if recentAvg > olderAvg * (12 / 10) then
      (3, ["Growing FCF trend adds to intrinsic value"])
    else if recentAvg > olderAvg then
      (2, ["Stable to growing FCF supports valuation"])
    else (0, ["Declining FCF trend is concerning"])
  else (0, [])

/-- `calculateMungerValuation` from the source: guards for a truthy
positive market cap and at least 3 FCF values, FCF normalized as the
mean of the first `min(5, n)` values in input order, the yield / margin
of safety / trend sub-checks, and the fixed 10x / 15x / 20x intrinsic
value bands. -/
def calculateMungerValuation (li : List LineItem) (marketCap : Option ℚ) : ValuationResult :=
  let fcfValues := fcfValuesOf li
  if truthyQ marketCap = false ∨ jsNum marketCap ≤ 0 then
    ⟨0, "Insufficient data to perform valuation", none, none, none⟩
  else if fcfValues.length < 3 then
    ⟨0, "Insufficient free cash flow data for valuation", none, none, none⟩
  else
    let m := jsNum marketCap
    let periodsToAverage := min 5 fcfValues.length
    let normalizedFcf := (fcfValues.take periodsToAverage).sum / (periodsToAverage : ℚ)
    if normalizedFcf ≤ 0 then
      ⟨0, "Negative or zero normalized FCF (" ++ toString normalizedFcf ++ "), cannot value",
       none, none, none⟩
    else
      let fcfYield := normalizedFcf / m
      let c1 := fcfYieldCheck fcfYield
      let conservativeValue := normalizedFcf * 10
      let reasonableValue := normalizedFcf * 15
      let optimisticValue := normalizedFcf * 20
      let currentToReasonable := (reasonableValue - m) / m
      let c2 := safetyCheck currentToReasonable
      let c3 := fcfTrendCheck fcfValues
      let raw := c1.1 + c2.1 + c3.1
      ⟨min 10 (raw * 10 / 10),
       String.intercalate "; " (c1.2 ++ c2.2 ++ c3.2),
       some ⟨conservativeValue, reasonableValue, optimisticValue⟩,
       some fcfYield, some normalizedFcf⟩

/-- The valuation analyzer's rationale fragments as the ordered list the
source accumulates before `details.join("; ")`. -/
def valDetails (li : List LineItem) (marketCap : Option ℚ) : List String :=
  let fcfValues := fcfValuesOf li
  if truthyQ marketCap = false ∨ jsNum marketCap ≤ 0 then
    ["Insufficient data to perform valuation"]
  else if fcfValues.length < 3 then
    ["Insufficient free cash flow data for valuation"]
  else
    let m := jsNum marketCap
    let periodsToAverage := min 5 fcfValues.length
    let normalizedFcf := (fcfValues.take periodsToAverage).sum / (periodsToAverage : ℚ)
    if normalizedFcf ≤ 0 then
      ["Negative or zero normalized FCF (" ++ toString normalizedFcf ++ "), cannot value"]
    else
      let fcfYield := normalizedFcf / m
      let currentToReasonable := (normalizedFcf * 15 - m) / m
      (fcfYieldCheck fcfYield).2 ++ (safetyCheck currentToReasonable).2 ++ (fcfTrendCheck fcfValues).2

/-- The claim-side normalized FCF: the mean of the first `min(5, n)`
values of a series, in the order given. -/
def meanFirstFcf (l : List ℚ) : ℚ :=
  (l.take (min 5 l.length)).sum / ((min 5 l.length : Nat) : ℚ)

/-- The weighted aggregation of the four analyzer scores performed by
`charlieMungerTool.execute`. -/
def totalScore (moat management predictability valuation : ℚ) : ℚ :=
  moat * (35 / 100) + management * (25 / 100) +
    predictability * (25 / 100) + valuation * (15 / 100)

/-- The signal classification of `charlieMungerTool.execute`: bullish at
or above 7.5, bearish at or below 4.5, neutral in between. -/
def signalFor (total : ℚ) : String :=
  if total ≥ 15 / 2 then "bullish"
  else if total ≤ 9 / 2 then "bearish"
  else "neutral"

/-- A `{title, content}` memo section. -/
structure MemoSection where
  title : String
  content : String
deriving DecidableEq, Inhabited

/-- The memo-content assembly of `generateInvestmentMemo`: title line,
executive summary block, then one `##` block per section, joined with
blank lines. -/
def memoContent (companyName ticker summary : String) (sections : List MemoSection) : String :=
  "# Investment Memo: " ++ companyName ++ " (" ++ ticker ++ ")\n\n## Executive Summary\n\n" ++
    summary ++ "\n\n" ++
    String.intercalate "\n\n" (sections.map (fun s => "## " ++ s.title ++ "\n\n" ++ s.content))

/-- Lexicographic comparison of char lists by code point, the order JS
uses for `<`/`<=`/`sort()` on strings. -/
def charListLt : List Char → List Char → Bool
  | [], [] => false
  | [], _ :: _ => true
  | _ :: _, [] => false
  | a :: as, b :: bs =>
      if a.toNat < b.toNat then true
      else if b.toNat < a.toNat then false
      else charListLt as bs

/-- JS `a < b` on strings. -/
def strLt (a b : String) : Bool := charListLt a.toList b.toList

/-- JS `a <= b` on strings. -/
def strLe (a b : String) : Bool := !(strLt b a)

/-- JS truthiness of a nullable string (`if (startDate)`): `null` and the
empty string are falsy. -/
def strTruthy : Option String → Bool
  | some s => s != ""
  | none => false

/-- The date portion of a filing-date string, the embedding of
`.split('T')[0]`. -/
def datePortionOf (s : String) : String :=
  String.mk (s.toList.takeWhile (fun c => c ≠ 'T'))

/-- The lexicographically smallest string of a list (`.sort()[0]` of JS,
`none` on an empty list). -/
def minString : List String → Option String
  | [] => none
  | a :: rest => some (rest.foldl (fun m s => if strLt s m then s else m) a)

/-- The next `endDate` chosen by the pagination loop of
`getInsiderTrades`: the oldest filing date of the current page, truncated
to its date portion. -/
def oldestFilingDate (page : List InsiderTrade) : String :=
  datePortionOf ((minString (page.map (fun t => t.filing_date))).getD "")

/-- The pagination loop of `getInsiderTrades`, with the upstream API
abstracted as `fetch : endDate ↦ page` (ticker, `startDate` filter and
`limit` are fixed for one call). The result carries the accumulated
trades together with the list of `endDate`s queried; `none` embeds a run
of `while (true)` that exceeds the given fuel. -/
def getInsiderTradesLoop (fetch : String → List InsiderTrade) (limit : Nat)
    (startDate : Option String) : Nat → String → Option (List InsiderTrade × List String)
  | 0, _ => none
  | fuel + 1, currentEndDate =>
    let page := fetch currentEndDate
    if page.isEmpty then some ([], [currentEndDate])
    else if strTruthy startDate = false ∨ page.length < limit then
      some (page, [currentEndDate])
    else
      let oldestDate := oldestFilingDate page
      if strLe oldestDate (startDate.getD "") then some (page, [currentEndDate])
      else
        match getInsiderTradesLoop fetch limit startDate fuel oldestDate with
        | none => none
        | some (rest, trace) => some (page ++ rest, currentEndDate :: trace)

/-- `getInsiderTrades` itself: run the pagination loop from the caller's
`endDate` and return the accumulated trades. -/
def getInsiderTrades (fetch : String → List InsiderTrade) (limit : Nat)
    (startDate : Option String) (fuel : Nat) (endDate : String) :
    Option (List InsiderTrade) :=
  (getInsiderTradesLoop fetch limit startDate fuel endDate).map (fun p => p.1)

/-- Well-formedness of a pagination trace: every page except possibly the
last is non-empty and full, and each subsequent query uses exactly the
oldest filing date of the previous page. -/
def traceOk (fetch : String → List InsiderTrade) (limit : Nat) : List String → Prop
  | d1 :: d2 :: rest =>
      fetch d1 ≠ [] ∧ limit ≤ (fetch d1).length ∧
      d2 = oldestFilingDate (fetch d1) ∧ traceOk fetch limit (d2 :: rest)
  | _ => True

/-- The count of consecutive non-decreasing pairs of a series, phrased
over the list of adjacent pairs. -/
def pairNonDecCount (l : List ℚ) : Nat :=
  ((l.zip l.tail).filter (fun p => decide (p.1 ≤ p.2))).length

/-- A line-item record with every numeric field `null`. -/
def c2Item : LineItem := { reporting_period := 1 }

/-- A metrics record for counterexample inputs. -/
def c7Metric : FinancialMetrics := {}

/-- A line-item record with every numeric field `null`. -/
def c7Item : LineItem := { reporting_period := 1 }

/-- Three FCF-bearing periods, each with free cash flow 1. -/
def c3Items : List LineItem :=
  [{ reporting_period := 1, free_cash_flow := some 1 },
   { reporting_period := 2, free_cash_flow := some 1 },
   { reporting_period := 3, free_cash_flow := some 1 }]

/-- Three periods whose outstanding shares fall from 200 (period 1,
oldest) to 100 (period 3, newest): the company halved its share count. -/
def c4Items : List LineItem :=
  [{ reporting_period := 1, outstanding_shares := some 200 },
   { reporting_period := 3, outstanding_shares := some 100 },
   { reporting_period := 2, outstanding_shares := some 150 }]

/-- Three periods with strictly increasing gross margins 0.1, 0.2, 0.3. -/
def c5Items : List LineItem :=
  [{ reporting_period := 1, gross_margin := some (1 / 10) },
   { reporting_period := 2, gross_margin := some (2 / 10) },
   { reporting_period := 3, gross_margin := some (3 / 10) }]

/-- Three periods with constant gross margin 0.4. -/
def c5wItems : List LineItem :=
  [{ reporting_period := 1, gross_margin := some (4 / 10) },
   { reporting_period := 2, gross_margin := some (4 / 10) },
   { reporting_period := 3, gross_margin := some (4 / 10) }]

/-- Metrics record for the order-dependence counterexample. -/
def c8Metric : FinancialMetrics := {}

/-- Four periods with gross margins in ascending input order. -/
def c8ItemsA : List LineItem :=
  [{ reporting_period := 1, gross_margin := some (1 / 10) },
   { reporting_period := 2, gross_margin := some (2 / 10) },
   { reporting_period := 3, gross_margin := some (3 / 10) },
   { reporting_period := 4, gross_margin := some (4 / 10) }]

/-- The same four records as `c8ItemsA` with the first two swapped. -/
def c8ItemsB : List LineItem :=
  [{ reporting_period := 2, gross_margin := some (2 / 10) },
   { reporting_period := 1, gross_margin := some (1 / 10) },
   { reporting_period := 3, gross_margin := some (3 / 10) },
   { reporting_period := 4, gross_margin := some (4 / 10) }]

/-- A record with positive operating income for the permutation witness. -/
def c8wA : LineItem := { reporting_period := 1, operating_income := some 5 }

/-- A second record with positive operating income for the permutation
witness. -/
def c8wB : LineItem := { reporting_period := 2, operating_income := some 7 }

/-- A line-item record with every numeric field `null`. -/
def c10Item : LineItem := { reporting_period := 1 }

/-- Insider trade filed on 2020-03-01. -/
def c6tA : InsiderTrade := { filing_date := "2020-03-01" }

/-- Insider trade filed on 2020-01-05. -/
def c6tB : InsiderTrade := { filing_date := "2020-01-05" }

/-- Insider trade filed on 2019-06-01. -/
def c6tC : InsiderTrade := { filing_date := "2019-06-01" }

/-- A mocked data source: a full page of two trades at the initial end
date, then a short page of one trade when re-queried. -/
def c6Fetch : String → List InsiderTrade :=
  fun d =>
    if d = "2020-06-01" then [c6tA, c6tB]
    else if d = "2020-01-05" then [c6tC]
    else []

/-- C1: the aggregated total is the fixed weighted sum
moat*0.35 + management*0.25 + predictability*0.25 + valuation*0.15, and
the emitted signal is "bullish" iff total ≥ 7.5, "bearish" iff
total ≤ 4.5 and "neutral" otherwise, with both boundaries inclusive. -/
theorem signal_threshold_bands (m g p v : ℚ) :
    totalScore m g p v =
      m * (35 / 100) + g * (25 / 100) + p * (25 / 100) + v * (15 / 100) ∧
    (signalFor (totalScore m g p v) = "bullish" ↔ 15 / 2 ≤ totalScore m g p v) ∧
    (signalFor (totalScore m g p v) = "bearish" ↔ totalScore m g p v ≤ 9 / 2) ∧
    (signalFor (totalScore m g p v) = "neutral" ↔
      9 / 2 < totalScore m g p v ∧ totalScore m g p v < 15 / 2) ∧
    signalFor (15 / 2 : ℚ) = "bullish" ∧ signalFor (9 / 2 : ℚ) = "bearish" := by
  refine ⟨rfl, ?_, ?_, ?_, by norm_num [signalFor], by norm_num [signalFor]⟩
  · unfold signalFor
    split_ifs with h1 h2
    · exact iff_of_true rfl h1
    · exact iff_of_false (by decide) h1
    · exact iff_of_false (by decide) h1
  · unfold signalFor
    split_ifs with h1 h2
    · exact iff_of_false (by decide) (by intro hc; rw [ge_iff_le] at h1; linarith)
    · exact iff_of_true rfl h2
    · exact iff_of_false (by decide) h2
  · unfold signalFor
    split_ifs with h1 h2
    · exact iff_of_false (by decide) (by intro hc; rw [ge_iff_le] at h1; linarith [hc.2])
    · exact iff_of_false (by decide) (by intro hc; linarith [hc.1])
    · exact iff_of_true rfl ⟨lt_of_not_le h2, lt_of_not_le (by rw [ge_iff_le] at h1; exact h1)⟩

/-- C9: the assembled memo content follows the exact textual template —
title line, executive-summary block, then one heading-plus-content block
per section, all separated by blank lines. -/
theorem memo_content_template :
    memoContent "Co" "T" "S" [⟨"A", "x"⟩] =
      "# Investment Memo: Co (T)\n\n## Executive Summary\n\nS\n\n## A\n\nx" ∧
    memoContent "Co" "T" "S" [⟨"A", "x"⟩, ⟨"B", "y"⟩] =
      "# Investment Memo: Co (T)\n\n## Executive Summary\n\nS\n\n## A\n\nx\n\n## B\n\ny" :=
  ⟨rfl, rfl⟩

/-- C2 counterexample: a non-empty line-item list with no period carrying
both total debt and shareholders' equity makes `analyzeManagementQuality`
throw (the unguarded `[0]` access), instead of returning a score of 0. -/
theorem management_quality_throws_cx :
    ([c2Item].filter (fun it => truthyQ it.total_debt && truthyQ it.shareholders_equity)) = [] ∧
    analyzeManagementQuality [c2Item] [] = none := by
  constructor <;> rfl

/-- C4: evaluation at the failing input. `c4Items` halves its share count
from 200 (oldest period) to 100 (newest period), yet the share-count
check returns the −1 dilution penalty with the "increased significantly"
rationale, because after the descending sort the code reads `items[0]`
(the newest count) into `oldestCount` and `items[last]` (the oldest
count) into `newestCount`. -/
theorem share_count_inverted_eval :
    (sortByPeriodDesc c4Items).map (fun it => jsNum it.outstanding_shares) = [100, 150, 200] ∧
    shareCountCheck c4Items =
      (-1, ["Concerning dilution: Share count increased significantly"]) := by
  constructor
  · norm_num [c4Items, sortByPeriodDesc, insertPeriodDesc, jsNum]
  · norm_num [shareCountCheck, c4Items, sortByPeriodDesc, insertPeriodDesc, jsNum, truthyQ]

/-- C5 counterexample: with three gross-margin periods 0.1, 0.2, 0.3,
both consecutive pairs are non-decreasing, so the claimed ratio
count/(n−1) = 1 is at least 0.7, yet the check awards 0, not +2 (the
code compares the count against 0.7·n = 2.1). -/
theorem gross_margin_ratio_cx :
    nonDecreaseCount (c5Items.map (fun it => jsNum it.gross_margin)) = 2 ∧
    (7 / 10 : ℚ) ≤ (2 : ℚ) / (3 - 1) ∧
    (marginCheck c5Items).1 = 0 := by
  refine ⟨?_, by norm_num, ?_⟩
  · norm_num [c5Items, nonDecreaseCount, jsNum]
  · norm_num [marginCheck, c5Items, nonDecreaseCount, jsNum]

/-- C7 counterexample: the moat analyzer's returned `details` is the
single string obtained by joining the rationale fragments with "; ", not
an ordered list of strings. -/
theorem details_single_string_cx :
    (analyzeMoatStrength [c7Metric] [c7Item]).details =
      String.intercalate "; "
        ["Poor ROIC: Never exceeds 15% threshold",
         "Insufficient gross margin data",
         "Insufficient data for capital intensity analysis"] ∧
    (analyzeMoatStrength [c7Metric] [c7Item]).details =
      "Poor ROIC: Never exceeds 15% threshold; Insufficient gross margin data; Insufficient data for capital intensity analysis" := by
  constructor
  · norm_num [analyzeMoatStrength, roicCheck, marginCheck, capexCheck, rdCheck,
      goodwillCheck, c7Metric, c7Item, jsNum, truthyQ, String.intercalate]
  · norm_num [analyzeMoatStrength, roicCheck, marginCheck, capexCheck, rdCheck,
      goodwillCheck, c7Metric, c7Item, jsNum, truthyQ, String.intercalate]
    rfl

/-- C8 counterexample: the moat analyzer does not sort its input — the
same four records in ascending versus descending input order produce
different scores (the gross-margin trend reads input order). -/
theorem moat_order_dependent_cx :
    c8ItemsA.Perm c8ItemsB ∧
    (analyzeMoatStrength [c8Metric] c8ItemsA).score ≠
      (analyzeMoatStrength [c8Metric] c8ItemsB).score := by
  constructor
  · exact List.Perm.swap _ _ _
  · norm_num [analyzeMoatStrength, roicCheck, marginCheck, capexCheck, rdCheck,
      goodwillCheck, c8Metric, c8ItemsA, c8ItemsB, jsNum, truthyQ, nonDecreaseCount]

/-- C6 counterexample: after a full first page whose oldest filing date
is "2020-01-05", the loop re-queries with endDate "2020-01-05" itself —
not "2020-01-04", the date one unit earlier that the claim requires. -/
theorem insider_requery_date_cx :
    getInsiderTradesLoop c6Fetch 2 (some "2019-01-01") 5 "2020-06-01" =
      some ([c6tA, c6tB, c6tC], ["2020-06-01", "2020-01-05"]) ∧
    oldestFilingDate (c6Fetch "2020-06-01") = "2020-01-05" ∧
    "2020-01-05" ≠ "2020-01-04" := by
  refine ⟨by decide, by decide, by decide⟩

/-- C2 (amended): each analyzer returns score 0 with its explanatory
rationale on its insufficient-data guards — `analyzeMoatStrength` for
empty metrics or empty line items, `analyzeManagementQuality` for an
empty line-item list, `analyzePredictability` for fewer than 5 records,
and `calculateMungerValuation` both for a null or non-positive market
cap (on any line-item list) and for fewer than 3 truthy-FCF periods with
a positive market cap. `analyzeManagementQuality`, however, does not
fail soft on a non-empty line-item list in which no period has both
total debt and shareholders' equity present, or none has both cash and
revenue present: there it throws a TypeError from the unguarded `[0]`
access of the debt or cash check. -/
theorem analyzers_insufficient_data (ms : List FinancialMetrics) (li : List LineItem)
    (trades : List InsiderTrade) (mc : Option ℚ) (m : ℚ) :
    analyzeMoatStrength [] li = ⟨0, "Insufficient data to analyze moat strength"⟩ ∧
    analyzeMoatStrength ms [] = ⟨0, "Insufficient data to analyze moat strength"⟩ ∧
    analyzeManagementQuality [] trades =
      some ⟨0, "Insufficient data to analyze management quality"⟩ ∧
    (li.length < 5 →
      analyzePredictability li =
        ⟨0, "Insufficient data to analyze business predictability (need 5+ years)"⟩) ∧
    (jsNum mc ≤ 0 →
      calculateMungerValuation li mc =
        ⟨0, "Insufficient data to perform valuation", none, none, none⟩) ∧
    (0 < m → (fcfValuesOf li).length < 3 →
      calculateMungerValuation li (some m) =
        ⟨0, "Insufficient free cash flow data for valuation", none, none, none⟩) ∧
    (li ≠ [] →
      (li.filter (fun it => truthyQ it.total_debt && truthyQ it.shareholders_equity) = [] ∨
       li.filter (fun it => truthyQ it.cash_and_equivalents && truthyQ it.revenue) = []) →
      analyzeManagementQuality li trades = none) := by
  refine ⟨rfl, ?_, rfl, ?_, ?_, ?_, ?_⟩
  · cases ms <;> rfl
  · intro h5
    unfold analyzePredictability
    rw [if_pos h5]
  · intro hmc
    have hguard : truthyQ mc = false ∨ jsNum mc ≤ 0 := Or.inr hmc
    simp only [calculateMungerValuation]
    rw [if_pos hguard]
  · intro hm h3
    have hguard : ¬(truthyQ (some m) = false ∨ jsNum (some m) ≤ 0) := by
      push_neg
      refine ⟨?_, ?_⟩
      · simp [truthyQ, hm.ne']
      · simpa [jsNum] using hm
    simp only [calculateMungerValuation]
    rw [if_neg hguard, if_pos h3]
  · intro hne hfe
    have hemp : ¬(li.isEmpty = true) := by
      cases li with
      | nil => exact absurd rfl hne
      | cons a l => simp
    simp only [analyzeManagementQuality]
    rw [if_neg hemp]
    rcases hfe with hd | hc
    · have hdn : debtCheck li = none := by
        unfold debtCheck
        rw [hd]
        rfl
      rw [hdn]
    · have hcn : cashCheck li = none := by
        unfold cashCheck
        rw [hc]
        rfl
      rcases hdm : debtCheck li with _ | c2
      · rfl
      · rw [hcn]

/-- C2 witness: the amended statement applied at concrete inputs — empty
lists for the guard clauses, and a single all-null record for the
management-quality throw. -/
theorem analyzers_insufficient_data_witness :
    analyzeMoatStrength [] [] = ⟨0, "Insufficient data to analyze moat strength"⟩ ∧
    analyzePredictability [] =
      ⟨0, "Insufficient data to analyze business predictability (need 5+ years)"⟩ ∧
    calculateMungerValuation [] none =
      ⟨0, "Insufficient data to perform valuation", none, none, none⟩ ∧
    calculateMungerValuation [] (some 10) =
      ⟨0, "Insufficient free cash flow data for valuation", none, none, none⟩ ∧
    analyzeManagementQuality [c2Item] [] = none :=
  ⟨(analyzers_insufficient_data [] [] [] none 10).1,
   (analyzers_insufficient_data [] [] [] none 10).2.2.2.1 (by decide),
   (analyzers_insufficient_data [] [] [] none 10).2.2.2.2.1 (by simp [jsNum]),
   (analyzers_insufficient_data [] [] [] none 10).2.2.2.2.2.1 (by norm_num) (by decide),
   (analyzers_insufficient_data [] [c2Item] [] none 10).2.2.2.2.2.2
     (by decide) (Or.inl rfl)⟩

/-- C3: with at least 3 truthy FCF values, a positive market cap and a
positive normalized FCF, the valuation analyzer's `normalizedFcf` is the
mean of the first min(5, n) FCF values in input order, and its intrinsic
value range is exactly (10×, 15×, 20×) that normalized FCF. -/
theorem valuation_intrinsic_multiples (li : List LineItem) (m : ℚ)
    (h3 : 3 ≤ (fcfValuesOf li).length) (hm : 0 < m)
    (hnf : 0 < meanFirstFcf (fcfValuesOf li)) :
    (calculateMungerValuation li (some m)).normalizedFcf =
      some (meanFirstFcf (fcfValuesOf li)) ∧
    (calculateMungerValuation li (some m)).intrinsicValueRange =
      some ⟨10 * meanFirstFcf (fcfValuesOf li),
            15 * meanFirstFcf (fcfValuesOf li),
            20 * meanFirstFcf (fcfValuesOf li)⟩ := by
  have hg1 : ¬(truthyQ (some m) = false ∨ jsNum (some m) ≤ 0) := by
    push_neg
    refine ⟨?_, ?_⟩
    · simp [truthyQ, hm.ne']
    · simpa [jsNum] using hm
  have hg2 : ¬((fcfValuesOf li).length < 3) := not_lt.mpr h3
  have hg3 : ¬(((fcfValuesOf li).take (min 5 (fcfValuesOf li).length)).sum /
      ((min 5 (fcfValuesOf li).length : Nat) : ℚ) ≤ 0) := by
    unfold meanFirstFcf at hnf
    exact not_le.mpr hnf
  simp only [calculateMungerValuation]
  rw [if_neg hg1, if_neg hg2, if_neg hg3]
  refine ⟨rfl, ?_⟩
  unfold meanFirstFcf
  simp only [Option.some.injEq, IntrinsicValueRange.mk.injEq]
  refine ⟨by ring, by ring, by ring⟩

/-- C3 witness: the theorem applied to three periods of FCF 1 and market
cap 10. -/
theorem valuation_intrinsic_multiples_witness :
    3 ≤ (fcfValuesOf c3Items).length ∧ (0 : ℚ) < 10 ∧
    0 < meanFirstFcf (fcfValuesOf c3Items) ∧
    ((calculateMungerValuation c3Items (some 10)).normalizedFcf =
       some (meanFirstFcf (fcfValuesOf c3Items)) ∧
     (calculateMungerValuation c3Items (some 10)).intrinsicValueRange =
       some ⟨10 * meanFirstFcf (fcfValuesOf c3Items),
             15 * meanFirstFcf (fcfValuesOf c3Items),
             20 * meanFirstFcf (fcfValuesOf c3Items)⟩) :=
  ⟨by norm_num [fcfValuesOf, c3Items, truthyQ],
   by norm_num,
   by norm_num [meanFirstFcf, fcfValuesOf, c3Items, truthyQ, jsNum],
   valuation_intrinsic_multiples c3Items 10
     (by norm_num [fcfValuesOf, c3Items, truthyQ])
     (by norm_num)
     (by norm_num [meanFirstFcf, fcfValuesOf, c3Items, truthyQ, jsNum])⟩

/-- The loop counter of the gross-margin trend equals the number of
adjacent pairs (m[i], m[i+1]) with m[i] ≤ m[i+1]. -/
theorem nonDecreaseCount_eq_pair : ∀ l : List ℚ, nonDecreaseCount l = pairNonDecCount l
  | [] => rfl
  | [_] => rfl
  | a :: b :: rest => by
    have ih := nonDecreaseCount_eq_pair (b :: rest)
    simp only [nonDecreaseCount, pairNonDecCount, List.tail_cons, List.zip_cons_cons,
      List.filter_cons] at ih ⊢
    rcases le_or_lt a b with h | h
    · simp [h, ih, Nat.add_comm]
    · simp [h, not_le.mpr h, ih]

/-- C5 (amended): with at least 3 periods, the gross-margin check awards
+2 exactly when the count of adjacent non-decreases reaches 70% of the
number of periods n (not 70% of the n−1 adjacent pairs; for n = 3 the +2
branch is unreachable); otherwise +1 exactly when the mean margin
exceeds 0.30; otherwise 0. -/
theorem gross_margin_trend_amended (li : List LineItem) (h3 : 3 ≤ li.length) :
    (marginCheck li).1 =
      if ((pairNonDecCount (li.map (fun it => jsNum it.gross_margin)) : ℚ) ≥
            (li.length : ℚ) * (7 / 10)) then 2
      else if (li.map (fun it => jsNum it.gross_margin)).sum / (li.length : ℚ) > 3 / 10 then 1
      else 0 := by
  simp only [marginCheck, List.length_map, ← nonDecreaseCount_eq_pair]
  rw [if_pos h3]
  split_ifs <;> rfl

/-- C5 witness: the amended statement evaluated at three periods of
constant margin 0.4 (the +1 branch). -/
theorem gross_margin_trend_amended_witness :
    3 ≤ c5wItems.length ∧
    ((marginCheck c5wItems).1 =
      if ((pairNonDecCount (c5wItems.map (fun it => jsNum it.gross_margin)) : ℚ) ≥
            (c5wItems.length : ℚ) * (7 / 10)) then 2
      else if (c5wItems.map (fun it => jsNum it.gross_margin)).sum / (c5wItems.length : ℚ) > 3 / 10 then 1
      else 0) :=
  ⟨by decide, gross_margin_trend_amended c5wItems (by decide)⟩

/-- C7 (amended): every analyzer accumulates its rationale strings as an
ordered list, one fragment list per sub-check in evaluation order, but
returns them collapsed into a single string joined with "; " (the
management analyzer's is stated through `Option.map` since that analyzer
can throw). -/
theorem details_joined_order (ms : List FinancialMetrics) (li : List LineItem)
    (trades : List InsiderTrade) (mc : Option ℚ) :
    (analyzeMoatStrength ms li).details = String.intercalate "; " (moatDetails ms li) ∧
    (analyzePredictability li).details = String.intercalate "; " (predDetails li) ∧
    (calculateMungerValuation li mc).details = String.intercalate "; " (valDetails li mc) ∧
    (analyzeManagementQuality li trades).map AnalysisResult.details =
      (mgmtDetails li trades).map (String.intercalate "; ") := by
  refine ⟨?_, ?_, ?_, ?_⟩
  · unfold analyzeMoatStrength moatDetails
    by_cases hg : (ms.isEmpty || li.isEmpty) = true
    · rw [if_pos hg, if_pos hg]
      rfl
    · rw [if_neg hg, if_neg hg]
  · unfold analyzePredictability predDetails
    by_cases hg : li.length < 5
    · rw [if_pos hg, if_pos hg]
      rfl
    · rw [if_neg hg, if_neg hg]
  · simp only [calculateMungerValuation, valDetails]
    split_ifs <;> rfl
  · unfold analyzeManagementQuality mgmtDetails
    by_cases hg : li.isEmpty = true
    · rw [if_pos hg, if_pos hg]
      rfl
    · rw [if_neg hg, if_neg hg]
      rcases hdc : debtCheck li with _ | c2
      · simp [hdc]
      · rcases hcc : cashCheck li with _ | c3
        · simp [hdc, hcc]
        · simp [hdc, hcc]

/-- C10: in the analyzers' field filters a value of exactly 0 is excluded
just like a missing (`null`) value, because truthiness is tested first:
removing a record whose operating income is 0 or null leaves the
operating-income positivity check unchanged, and likewise a record whose
free cash flow is 0 or null for the FCF-reliability and FCF/NI checks. -/
theorem zero_field_filtered_like_null (pre post : List LineItem) (it : LineItem) :
    truthyQ (some 0) = truthyQ none ∧
    ((it.operating_income = some 0 ∨ it.operating_income = none) →
      opIncomeCheck (pre ++ it :: post) = opIncomeCheck (pre ++ post)) ∧
    ((it.free_cash_flow = some 0 ∨ it.free_cash_flow = none) →
      fcfReliabilityCheck (pre ++ it :: post) = fcfReliabilityCheck (pre ++ post) ∧
      fcfNiCheck (pre ++ it :: post) = fcfNiCheck (pre ++ post)) := by
  have hfilter : ∀ p : LineItem → Bool, p it = false →
      (pre ++ it :: post).filter p = (pre ++ post).filter p := by
    intro p hp
    simp [List.filter_append, List.filter_cons, hp]
  refine ⟨by decide, ?_, ?_⟩
  · intro h0
    have hp : truthyQ it.operating_income = false := by
      rcases h0 with h | h <;> rw [h] <;> decide
    simp only [opIncomeCheck]
    rw [hfilter _ hp]
  · intro h0
    have hp : truthyQ it.free_cash_flow = false := by
      rcases h0 with h | h <;> rw [h] <;> decide
    constructor
    · simp only [fcfReliabilityCheck]
      rw [hfilter _ hp]
    · have hp2 : (truthyQ it.free_cash_flow && truthyQ it.net_income) = false := by
        rw [hp]; rfl
      simp only [fcfNiCheck]
      rw [hfilter _ hp2]

/-- C10 witness: the filter-equality applied to a record whose operating
income and free cash flow are null. -/
theorem zero_field_filtered_like_null_witness :
    (c10Item.operating_income = some 0 ∨ c10Item.operating_income = none) ∧
    opIncomeCheck ([] ++ c10Item :: []) = opIncomeCheck ([] ++ []) ∧
    fcfReliabilityCheck ([] ++ c10Item :: []) = fcfReliabilityCheck ([] ++ []) :=
  ⟨Or.inr rfl,
   (zero_field_filtered_like_null [] [] c10Item).2.1 (Or.inr rfl),
   ((zero_field_filtered_like_null [] [] c10Item).2.2 (Or.inr rfl)).1⟩

/-- C8 (amended): the predictability analyzer's operating-income,
operating-margin and FCF-reliability sub-checks are invariant under any
permutation of the input records (they use only counts, sums and mean
absolute deviations); the moat and valuation analyzers, by contrast, read
records in input order without sorting, so their results are not
permutation-invariant — see the counterexample. -/
theorem predictability_subchecks_perm_invariant (l1 l2 : List LineItem) (h : l1.Perm l2) :
    opIncomeCheck l1 = opIncomeCheck l2 ∧
    opMarginCheck l1 = opMarginCheck l2 ∧
    fcfReliabilityCheck l1 = fcfReliabilityCheck l2 := by
  refine ⟨?_, ?_, ?_⟩
  · have hf := h.filter (fun it => truthyQ it.operating_income)
    have hlen := hf.length_eq
    have hpos := ((hf.map (fun it => jsNum it.operating_income)).filter
      (fun v => decide (0 < v))).length_eq
    simp only [opIncomeCheck, List.length_map]
    rw [hlen, hpos]
  · have hf := h.filter (fun it => truthyQ it.operating_margin)
    have hlen := hf.length_eq
    have hmap := hf.map (fun it => jsNum it.operating_margin)
    have hsum := hmap.sum_eq
    have hdev : ∀ g : ℚ → ℚ,
        (((l1.filter (fun it => truthyQ it.operating_margin)).map
            (fun it => jsNum it.operating_margin)).map g).sum =
        (((l2.filter (fun it => truthyQ it.operating_margin)).map
            (fun it => jsNum it.operating_margin)).map g).sum :=
      fun g => (hmap.map g).sum_eq
    simp only [opMarginCheck, List.length_map]
    rw [hlen, hsum, hdev]
  · have hf := h.filter (fun it => truthyQ it.free_cash_flow)
    have hlen := hf.length_eq
    have hpos := ((hf.map (fun it => jsNum it.free_cash_flow)).filter
      (fun v => decide (0 < v))).length_eq
    simp only [fcfReliabilityCheck, List.length_map]
    rw [hlen, hpos]

/-- C8 witness: the invariance applied to swapping two records with
positive operating income. -/
theorem predictability_subchecks_perm_invariant_witness :
    [c8wA, c8wB].Perm [c8wB, c8wA] ∧
    (opIncomeCheck [c8wA, c8wB] = opIncomeCheck [c8wB, c8wA] ∧
     opMarginCheck [c8wA, c8wB] = opMarginCheck [c8wB, c8wA] ∧
     fcfReliabilityCheck [c8wA, c8wB] = fcfReliabilityCheck [c8wB, c8wA]) :=
  ⟨List.Perm.swap c8wB c8wA [],
   predictability_subchecks_perm_invariant [c8wA, c8wB] [c8wB, c8wA]
     (List.Perm.swap c8wB c8wA [])⟩

/-- Every successful run of the pagination loop has a trace starting with
the end date it was called on. -/
theorem getInsiderTradesLoop_trace_head (fetch : String → List InsiderTrade) (limit : Nat)
    (sd : Option String) :
    ∀ fuel d res trace, getInsiderTradesLoop fetch limit sd fuel d = some (res, trace) →
      ∃ tl, trace = d :: tl := by
  intro fuel
  cases fuel with
  | zero => intro d res trace hloop; simp [getInsiderTradesLoop] at hloop
  | succ n =>
    intro d res trace hloop
    simp only [getInsiderTradesLoop] at hloop
    split_ifs at hloop with h1 h2 h3
    · simp only [Option.some.injEq, Prod.mk.injEq] at hloop
      exact ⟨[], hloop.2.symm⟩
    · simp only [Option.some.injEq, Prod.mk.injEq] at hloop
      exact ⟨[], hloop.2.symm⟩
    · simp only [Option.some.injEq, Prod.mk.injEq] at hloop
      exact ⟨[], hloop.2.symm⟩
    · rcases hm : getInsiderTradesLoop fetch limit sd n (oldestFilingDate (fetch d)) with _ | p
      · rw [hm] at hloop; simp at hloop
      · rw [hm] at hloop
        simp only [Option.some.injEq, Prod.mk.injEq] at hloop
        exact ⟨p.2, hloop.2.symm⟩

/-- C6 (amended): without a truthy `startDate` exactly one page is
fetched; with one, whenever the loop terminates it returns the fetched
pages concatenated in order — the result length is the sum of all page
sizes — along a trace in which every page before the last is non-empty
and full and each subsequent query re-uses exactly the oldest filing
date of the previous page (its date portion, with no one-unit
decrement). -/
theorem insider_pagination_amended (fetch : String → List InsiderTrade) (limit : Nat)
    (sd : Option String) :
    (strTruthy sd = false → ∀ fuel d,
        getInsiderTradesLoop fetch limit sd (fuel + 1) d = some (fetch d, [d])) ∧
    (∀ fuel d trades trace,
        getInsiderTradesLoop fetch limit sd fuel d = some (trades, trace) →
          trades = (trace.map fetch).flatten ∧
          trades.length = (trace.map (fun e => (fetch e).length)).sum ∧
          traceOk fetch limit trace ∧
          getInsiderTrades fetch limit sd fuel d = some trades) := by
  constructor
  · intro hsd fuel d
    simp only [getInsiderTradesLoop]
    by_cases hp : (fetch d).isEmpty = true
    · rw [if_pos hp, List.isEmpty_iff.mp hp]
    · rw [if_neg hp, if_pos (Or.inl hsd)]
  · intro fuel
    induction fuel with
    | zero => intro d trades trace hloop; simp [getInsiderTradesLoop] at hloop
    | succ n ih =>
      intro d trades trace hloop
      have hget : getInsiderTrades fetch limit sd (n + 1) d = some trades := by
        unfold getInsiderTrades
        rw [hloop]
        rfl
      simp only [getInsiderTradesLoop] at hloop
      split_ifs at hloop with h1 h2 h3
      · simp only [Option.some.injEq, Prod.mk.injEq] at hloop
        obtain ⟨htr, htc⟩ := hloop
        subst htr
        subst htc
        have hnil : fetch d = [] := List.isEmpty_iff.mp h1
        refine ⟨by simp [hnil], by simp [hnil], trivial, hget⟩
      · simp only [Option.some.injEq, Prod.mk.injEq] at hloop
        obtain ⟨htr, htc⟩ := hloop
        subst htr
        subst htc
        exact ⟨by simp, by simp, trivial, hget⟩
      · simp only [Option.some.injEq, Prod.mk.injEq] at hloop
        obtain ⟨htr, htc⟩ := hloop
        subst htr
        subst htc
        exact ⟨by simp, by simp, trivial, hget⟩
      · rcases hm : getInsiderTradesLoop fetch limit sd n (oldestFilingDate (fetch d)) with _ | p
        · rw [hm] at hloop; simp at hloop
        · obtain ⟨rest, tr⟩ := p
          rw [hm] at hloop
          simp only [Option.some.injEq, Prod.mk.injEq] at hloop
          obtain ⟨htr, htc⟩ := hloop
          subst htr
          subst htc
          obtain ⟨hj, hlen2, hok, -⟩ := ih (oldestFilingDate (fetch d)) rest tr hm
          obtain ⟨tl, htl⟩ :=
            getInsiderTradesLoop_trace_head fetch limit sd n (oldestFilingDate (fetch d)) rest tr hm
          refine ⟨by simp [hj], by simp [hlen2], ?_, hget⟩
          subst htl
          push_neg at h2
          refine ⟨?_, h2.2, rfl, hok⟩
          intro hnil
          exact h1 (by simp [hnil])

/-- C6 witness: the pagination facts at the mocked data source — a full
page of two trades then a short page of one — so the aggregated result
is all three trades and its length is the sum of the two page sizes. -/
theorem insider_pagination_amended_witness :
    ([c6tA, c6tB, c6tC] : List InsiderTrade) =
      ((["2020-06-01", "2020-01-05"].map c6Fetch).flatten) ∧
    ([c6tA, c6tB, c6tC] : List InsiderTrade).length =
      (["2020-06-01", "2020-01-05"].map (fun e => (c6Fetch e).length)).sum ∧
    traceOk c6Fetch 2 ["2020-06-01", "2020-01-05"] ∧
    getInsiderTrades c6Fetch 2 (some "2019-01-01") 5 "2020-06-01" =
      some [c6tA, c6tB, c6tC] :=
  (insider_pagination_amended c6Fetch 2 (some "2019-01-01")).2 5 "2020-06-01"
    [c6tA, c6tB, c6tC] ["2020-06-01", "2020-01-05"] (by decide)
